import Mathlib

/-!
# BSCredentialProvider: the credential-set lifecycle

A shallow embedding of `CredentialProvider/BSCredentialProvider.cpp`: the provider object
becomes a record of its data members, every member function becomes a function on that
record, and the calls made on collaborating COM objects (the user array, the credential
objects) are driven by explicit per-slot outcomes and recorded in an event log.

Dereferencing a pointer that does not point to a live object is undefined behaviour in the
source; the embedding makes it an explicit `Outcome.fault`.

Conventions.
* `HRESULT` is a signed 32-bit value, embedded as `Int`; `SUCCEEDED hr` is `0 ≤ hr`.
* `DWORD` counts and indices are natural numbers. The user count is the length of the
  user list; the `int` loop index of the source agrees with it below `2^31`.
* The out-parameters of the source are always valid pointers; they become return values.
* Reference counting of the user array and of the user objects is not recorded: only calls
  on credential objects are logged. `SetUserArray` is given a non-null array.
* `Advise` and the members it writes (`m_upAdviseContext`, `m_pcpe`) are only passed on to
  the credential constructor and are left out, as is the destructor.
* The class declaration (`BSCredentialProvider.h`) and the class `BSCredential` are not part
  of the sources: what the constructor leaves unassigned is a parameter of `new`, and the
  two members of `BSCredential` the lifecycle depends on are modelled from the spec.
-/

namespace BSCredentialProvider

/-! ## Result codes and scenario tags (Windows SDK values) -/

/-- Result code of a COM call, a signed 32-bit integer. -/
abbrev HRESULT := Int

/-- Success. -/
def S_OK : HRESULT := 0
/-- The value 0x80004001 read as a signed 32-bit integer. -/
def E_NOTIMPL : HRESULT := -2147467263
/-- The value 0x80070057 read as a signed 32-bit integer. -/
def E_INVALIDARG : HRESULT := -2147024809
/-- The value 0x8007000E read as a signed 32-bit integer. -/
def E_OUTOFMEMORY : HRESULT := -2147024882
/-- The value 0x8000FFFF read as a signed 32-bit integer. -/
def E_UNEXPECTED : HRESULT := -2147418113

/-- The SDK test `((HRESULT)(hr)) >= 0`. -/
def SUCCEEDED (hr : HRESULT) : Bool := decide (0 ≤ hr)
/-- The SDK test `((HRESULT)(hr)) < 0`. -/
def FAILED (hr : HRESULT) : Bool := decide (hr < 0)

/-- Values of the enumeration `CREDENTIAL_PROVIDER_USAGE_SCENARIO`. -/
abbrev CREDENTIAL_PROVIDER_USAGE_SCENARIO := Nat

/-- Scenario tag of the SDK: no scenario. -/
def CPUS_INVALID : CREDENTIAL_PROVIDER_USAGE_SCENARIO := 0
/-- Scenario tag of the SDK: interactive logon. -/
def CPUS_LOGON : CREDENTIAL_PROVIDER_USAGE_SCENARIO := 1
/-- Scenario tag of the SDK: workstation unlock. -/
def CPUS_UNLOCK_WORKSTATION : CREDENTIAL_PROVIDER_USAGE_SCENARIO := 2
/-- Scenario tag of the SDK: password change. -/
def CPUS_CHANGE_PASSWORD : CREDENTIAL_PROVIDER_USAGE_SCENARIO := 3
/-- Scenario tag of the SDK: credential UI. -/
def CPUS_CREDUI : CREDENTIAL_PROVIDER_USAGE_SCENARIO := 4

/-- The SDK constant `CREDENTIAL_PROVIDER_NO_DEFAULT`, which is `(DWORD)-1`. -/
def CREDENTIAL_PROVIDER_NO_DEFAULT : Nat := 4294967295

/-! ## Data model -/

/-- An opaque user identity (`ICredentialProviderUser`). -/
abbrev User := Nat

/-- A credential object (`BSCredential`): a fresh identity and the user it was
initialised with. -/
structure Handle where
  id : Nat
  user : User
  deriving DecidableEq, Repr

/-- What one element of the array `_pCredentials` holds. -/
inductive Slot
  /-- Never written since `new BSCredential*[n]`: an indeterminate pointer. -/
  | garbage
  /-- A null pointer: written by a failed `new(std::nothrow)`, or by the release loop. -/
  | null
  /-- A pointer to a credential whose only reference has been dropped (dangling). -/
  | released (h : Handle)
  /-- A pointer to a credential on which the provider holds a reference. -/
  | live (h : Handle)
  deriving DecidableEq, Repr

/-- Calls made on credential objects, in program order. -/
inductive Event
  /-- The expression `new(std::nothrow) BSCredential(..)`; `none` when it gave `nullptr`. -/
  | construct (h : Option Handle)
  /-- The call `Initialize` on a credential and its result. -/
  | initialised (h : Handle) (hr : HRESULT)
  /-- The call `Release` on a credential. -/
  | release (h : Handle)
  /-- The call `QueryInterface` on a credential. -/
  | queryInterface (h : Handle)
  deriving DecidableEq, Repr

/-- The kinds of undefined behaviour the member functions can run into. -/
inductive Fault
  /-- Indexing the array `_pCredentials` while it is `NULL`. -/
  | nullArray
  /-- Indexing the array `_pCredentials` outside its allocated size. -/
  | outOfBounds
  /-- Calling a member through an indeterminate slot. -/
  | wildPointer
  /-- Calling a member through a null slot. -/
  | nullPointer
  /-- Calling a member through a slot whose credential was already released. -/
  | useAfterRelease
  deriving DecidableEq, Repr

/-- Result of running a member function: a value, or undefined behaviour. -/
inductive Outcome (α : Type)
  | ok (a : α)
  | fault (f : Fault)
  deriving DecidableEq, Repr

/-- What the collaborators answer for one iteration of the enumeration loop. -/
structure SlotEnv where
  /-- Result of `_pCredProviderUserArray->GetAt(i, &pCredUser)`. -/
  getAt : HRESULT
  /-- Whether `new(std::nothrow) BSCredential(..)` gives a non-null pointer. -/
  alloc : Bool
  /-- Result of `Initialize` on the new credential. -/
  init : HRESULT
  deriving DecidableEq, Repr

/-- The data members of `BSCredentialProvider` read or written by the lifecycle, with the
identity counter and the event log of the embedding. -/
structure State where
  _cpus : CREDENTIAL_PROVIDER_USAGE_SCENARIO
  _fRecreateEnumeratedCredentials : Bool
  _pCredProviderUserArray : Option (List User)
  _pCredentials : Option (List Slot)
  _pCredential : Option Handle
  m_dwCredentialCount : Nat
  m_autoLogonWithDefault : Bool
  /-- Identity given to the next credential object constructed. -/
  nextId : Nat
  /-- Calls made on credential objects so far. -/
  log : List Event
  deriving DecidableEq, Repr

/-- The constructor. It assigns neither `_cpus` nor `_fRecreateEnumeratedCredentials`;
their initial values come from the class declaration, which is not part of the sources, and
are parameters here. -/
def new (cpus0 : CREDENTIAL_PROVIDER_USAGE_SCENARIO) (flag0 : Bool) : State :=
  { _cpus := cpus0
    _fRecreateEnumeratedCredentials := flag0
    _pCredProviderUserArray := none
    _pCredentials := none
    _pCredential := none
    m_dwCredentialCount := 0
    m_autoLogonWithDefault := true
    nextId := 0
    log := [] }

/-! ## The credential class

The class `BSCredential` is declared and implemented outside the sources at hand; the two
members the lifecycle relies on are taken from the spec. -/

/-- Modelled from the spec: `BSCredential::QueryInterface` is not part of the sources. The
spec has `getCredentialAt` return "a new shared reference to the credential handle at
`index`": called on a live credential for the interface of credentials, it returns `S_OK`
and hands out that credential. -/
def BSCredential_QueryInterface (h : Handle) : HRESULT × Option Handle :=
  (S_OK, some h)

/-- Modelled from the spec: `BSCredential::Release` and the constructor are not part of the
sources. The spec has each credential "exclusively owned by the registry until handed out"
and "last release destroys": `Release` on a credential just constructed destroys it, so a
pointer to `h` that is kept afterwards is dangling. -/
def afterLastRelease (h : Handle) : Slot :=
  .released h

/-! ## Member functions -/

/-- The member function `SetUsageScenario`. -/
def SetUsageScenario (cpus : CREDENTIAL_PROVIDER_USAGE_SCENARIO) (s : State) :
    HRESULT × State :=
  if cpus = CPUS_LOGON ∨ cpus = CPUS_UNLOCK_WORKSTATION then
    (S_OK, { s with _cpus := cpus, _fRecreateEnumeratedCredentials := true })
  else if cpus = CPUS_CHANGE_PASSWORD ∨ cpus = CPUS_CREDUI then
    (E_NOTIMPL, s)
  else
    (E_INVALIDARG, s)

/-- The member function `SetUserArray`; `users` is the non-null array passed in. -/
def SetUserArray (users : List User) (s : State) : HRESULT × State :=
  (S_OK, { s with _pCredProviderUserArray := some users })

/-- One iteration of the release loop, `_pCredentials[i]->Release(); _pCredentials[i] = NULL;`,
on the array and the event log. -/
def releaseSlot (i : Nat) (al : List Slot × List Event) : Outcome (List Slot × List Event) :=
  match al.1[i]? with
  | none => .fault .outOfBounds
  | some .garbage => .fault .wildPointer
  | some .null => .fault .nullPointer
  | some (.released _) => .fault .useAfterRelease
  | some (.live h) => .ok (al.1.set i .null, al.2 ++ [.release h])

/-- The release loop over the given indices, in order. -/
def releaseLoop : List Nat → List Slot × List Event → Outcome (List Slot × List Event)
  | [], al => .ok al
  | i :: is, al =>
    match releaseSlot i al with
    | .fault f => .fault f
    | .ok al1 => releaseLoop is al1

/-- The member function `_ReleaseEnumeratedCredentials`: when the array is not `NULL`, the
loop over `0 ≤ i < m_dwCredentialCount`, then `delete[]` and `_pCredentials = NULL`. The count
is left as it was. -/
def _ReleaseEnumeratedCredentials (s : State) : Outcome State :=
  match s._pCredentials with
  | none => .ok s
  | some arr =>
    match releaseLoop (List.range s.m_dwCredentialCount) (arr, s.log) with
    | .fault f => .fault f
    | .ok al => .ok { s with _pCredentials := none, log := al.2 }

/-- The assignment `_pCredentials[i] = v` on an allocated array. -/
def writeSlot (i : Nat) (v : Slot) (s : State) : State :=
  { s with _pCredentials := s._pCredentials.map (fun arr => arr.set i v) }

/-- One iteration of the enumeration loop, for index `i` whose user is `u`: the value of
`hr` at the end of the iteration and the state. The slot is written once, by
`_pCredentials[i] = _pCredential = new(std::nothrow) BSCredential(..)`; the failure branch
of `Initialize` releases the credential and clears `_pCredential`, not the slot. -/
def enumerateSlot (e : SlotEnv) (i : Nat) (u : User) (s : State) : HRESULT × State :=
  if SUCCEEDED e.getAt then
    if e.alloc then
      let h : Handle := { id := s.nextId, user := u }
      let s1 : State :=
        { writeSlot i (.live h) s with
          _pCredential := some h, nextId := s.nextId + 1,
          log := s.log ++ [.construct (some h), .initialised h e.init] }
      if FAILED e.init then
        (e.init, { writeSlot i (afterLastRelease h) s1 with
                   _pCredential := none, log := s1.log ++ [.release h] })
      else
        (e.init, s1)
    else
      (E_OUTOFMEMORY, { writeSlot i .null s with
                        _pCredential := none, log := s.log ++ [.construct none] })
  else
    (e.getAt, s)

/-- The enumeration loop from index `i` over the users that remain. -/
def enumerateFrom (env : Nat → SlotEnv) : List User → Nat → HRESULT × State → HRESULT × State
  | [], _, acc => acc
  | u :: us, i, acc => enumerateFrom env us (i + 1) (enumerateSlot (env i) i u acc.2)

/-- The member function `_EnumerateCredentials`; `env i` gives the collaborators' answers
for slot `i`. -/
def _EnumerateCredentials (env : Nat → SlotEnv) (s : State) : HRESULT × State :=
  match s._pCredProviderUserArray with
  | none => (E_UNEXPECTED, s)
  | some users =>
    let s1 : State := { s with m_dwCredentialCount := users.length }
    if 0 < users.length then
      enumerateFrom env users 0
        (E_UNEXPECTED, { s1 with _pCredentials := some (List.replicate users.length .garbage) })
    else
      (E_UNEXPECTED, s1)

/-- The member function `_CreateEnumeratedCredentials`; the result code of the enumeration is
discarded. -/
def _CreateEnumeratedCredentials (env : Nat → SlotEnv) (s : State) : State :=
  if s._cpus = CPUS_LOGON ∨ s._cpus = CPUS_UNLOCK_WORKSTATION then
    (_EnumerateCredentials env s).2
  else
    s

/-- The three out-parameters of `GetCredentialCount`. -/
structure CountResult where
  count : Nat
  defaultIndex : Nat
  autoLogonWithDefault : Bool
  deriving DecidableEq, Repr

/-- The member function `GetCredentialCount`; it always returns `S_OK`. -/
def GetCredentialCount (env : Nat → SlotEnv) (s : State) : Outcome (CountResult × State) :=
  if s._fRecreateEnumeratedCredentials then
    match _ReleaseEnumeratedCredentials { s with _fRecreateEnumeratedCredentials := false } with
    | .fault f => .fault f
    | .ok s1 =>
      let s2 := _CreateEnumeratedCredentials env s1
      .ok ({ count := s2.m_dwCredentialCount
             defaultIndex := CREDENTIAL_PROVIDER_NO_DEFAULT
             autoLogonWithDefault := s.m_autoLogonWithDefault }, s2)
  else
    .ok ({ count := s.m_dwCredentialCount
           defaultIndex := CREDENTIAL_PROVIDER_NO_DEFAULT
           autoLogonWithDefault := s.m_autoLogonWithDefault }, s)

/-- The return value and the out-parameter `*ppcpc` of `GetCredentialAt`. -/
structure AtResult where
  hr : HRESULT
  credential : Option Handle
  deriving DecidableEq, Repr

/-- The member function `GetCredentialAt`: below the count, `QueryInterface` is called
through the slot, whatever the slot holds. -/
def GetCredentialAt (dwIndex : Nat) (s : State) : Outcome (AtResult × State) :=
  if dwIndex < s.m_dwCredentialCount then
    match s._pCredentials with
    | none => .fault .nullArray
    | some arr =>
      match arr[dwIndex]? with
      | none => .fault .outOfBounds
      | some .garbage => .fault .wildPointer
      | some .null => .fault .nullPointer
      | some (.released _) => .fault .useAfterRelease
      | some (.live h) =>
        .ok ({ hr := (BSCredential_QueryInterface h).1
               credential := (BSCredential_QueryInterface h).2 },
             { s with log := s.log ++ [.queryInterface h] })
  else
    .ok ({ hr := E_INVALIDARG, credential := none }, s)

/-! ## Call sequences made by the host -/

/-- One call of the host on the provider. A count query carries the answers the
collaborators will give if it rebuilds. -/
inductive Call
  | selectScenario (cpus : CREDENTIAL_PROVIDER_USAGE_SCENARIO)
  | setCandidateUsers (users : List User)
  | queryCredentialCount (env : Nat → SlotEnv)
  | getCredentialAt (index : Nat)

/-- What the host gets back from one call. -/
inductive Response
  | scenario (hr : HRESULT)
  | users (hr : HRESULT)
  | count (r : CountResult)
  | credential (r : AtResult)
  deriving DecidableEq, Repr

/-- Dispatch of one call to its member function. -/
def step (c : Call) (s : State) : Outcome (Response × State) :=
  match c with
  | .selectScenario cpus => .ok (.scenario (SetUsageScenario cpus s).1, (SetUsageScenario cpus s).2)
  | .setCandidateUsers us => .ok (.users (SetUserArray us s).1, (SetUserArray us s).2)
  | .queryCredentialCount env =>
    match GetCredentialCount env s with
    | .fault f => .fault f
    | .ok (r, s1) => .ok (.count r, s1)
  | .getCredentialAt i =>
    match GetCredentialAt i s with
    | .fault f => .fault f
    | .ok (r, s1) => .ok (.credential r, s1)

/-- A sequence of calls, each run to completion before the next. -/
def run : List Call → State → Outcome (List Response × State)
  | [], s => .ok ([], s)
  | c :: cs, s =>
    match step c s with
    | .fault f => .fault f
    | .ok (r, s1) =>
      match run cs s1 with
      | .fault f => .fault f
      | .ok (rs, s2) => .ok (r :: rs, s2)

/-- Transport of a completed result; a fault stays the same fault. -/
def Outcome.map {α β : Type} (f : α → β) : Outcome α → Outcome β
  | .ok a => .ok (f a)
  | .fault e => .fault e

/-- Collaborators that succeed for every slot. -/
def allOk : Nat → SlotEnv := fun _ => { getAt := S_OK, alloc := true, init := S_OK }

/-- The state after `SetUsageScenario(CPUS_UNLOCK_WORKSTATION)`, `SetUserArray` with an empty
array and one `GetCredentialCount`, from a new provider. -/
def unlockedEmpty : State :=
  { _cpus := CPUS_UNLOCK_WORKSTATION
    _fRecreateEnumeratedCredentials := false
    _pCredProviderUserArray := some []
    _pCredentials := none
    _pCredential := none
    m_dwCredentialCount := 0
    m_autoLogonWithDefault := true
    nextId := 0
    log := [] }

/-- The state after `SetUsageScenario(CPUS_LOGON)` and `SetUserArray` with two users, from a
new provider: the rebuild flag is set and nothing is enumerated yet. -/
def logonTwoUsers : State :=
  { _cpus := CPUS_LOGON
    _fRecreateEnumeratedCredentials := true
    _pCredProviderUserArray := some [10, 11]
    _pCredentials := none
    _pCredential := none
    m_dwCredentialCount := 0
    m_autoLogonWithDefault := true
    nextId := 0
    log := [] }

/-- The state `logonTwoUsers` after one `GetCredentialCount` in which both constructions
succeed: two live credentials, the rebuild flag cleared. -/
def builtTwo : State :=
  { _cpus := CPUS_LOGON
    _fRecreateEnumeratedCredentials := false
    _pCredProviderUserArray := some [10, 11]
    _pCredentials := some [.live { id := 0, user := 10 }, .live { id := 1, user := 11 }]
    _pCredential := some { id := 1, user := 11 }
    m_dwCredentialCount := 2
    m_autoLogonWithDefault := true
    nextId := 2
    log := [.construct (some { id := 0, user := 10 }), .initialised { id := 0, user := 10 } S_OK,
            .construct (some { id := 1, user := 11 }), .initialised { id := 1, user := 11 } S_OK] }

/-- The state `builtTwo` after `SetUsageScenario(CPUS_UNLOCK_WORKSTATION)`: the same two
live credentials, the rebuild flag set again. -/
def reselected : State :=
  (SetUsageScenario CPUS_UNLOCK_WORKSTATION builtTwo).2

/-- Collaborators for which every `new(std::nothrow)` gives `nullptr`. -/
def allocFails : Nat → SlotEnv := fun _ => { getAt := S_OK, alloc := false, init := S_OK }

/-- Fields that no iteration of the enumeration loop writes, and the allocated size. -/
def sameFrame (s t : State) : Prop :=
  t._cpus = s._cpus
  ∧ t._fRecreateEnumeratedCredentials = s._fRecreateEnumeratedCredentials
  ∧ t._pCredProviderUserArray = s._pCredProviderUserArray
  ∧ t.m_dwCredentialCount = s.m_dwCredentialCount
  ∧ t.m_autoLogonWithDefault = s.m_autoLogonWithDefault
  ∧ t._pCredentials.map List.length = s._pCredentials.map List.length

/-- Count and storage agree: either nothing is allocated and the count is 0, or the array
is allocated with exactly `m_dwCredentialCount > 0` slots, under a supported scenario and
with a user array in place. -/
def Consistent (s : State) : Prop :=
  (s._pCredentials = none ∧ s.m_dwCredentialCount = 0)
  ∨ (∃ arr, s._pCredentials = some arr ∧ arr.length = s.m_dwCredentialCount
      ∧ 0 < s.m_dwCredentialCount
      ∧ (s._cpus = CPUS_LOGON ∨ s._cpus = CPUS_UNLOCK_WORKSTATION)
      ∧ s._pCredProviderUserArray ≠ none)

/-- The value 0x80004005 read as a signed 32-bit integer. -/
def E_FAIL : HRESULT := -2147467259

/-- The value of `hr` at the end of one iteration of the enumeration loop: the three
assignments `hr = GetAt(..)`, `hr = Initialize(..)` and `hr = E_OUTOFMEMORY`, in the order
of the source. -/
def slotResult (e : SlotEnv) : HRESULT :=
  if SUCCEEDED e.getAt then
    if e.alloc then e.init else E_OUTOFMEMORY
  else e.getAt

/-- The iteration built a credential: `GetAt` succeeded, the allocation gave an object and
`Initialize` did not fail. -/
def slotBuilt (e : SlotEnv) : Bool :=
  SUCCEEDED e.getAt && e.alloc && !FAILED e.init

/-- What an iteration with answers `e` for user `u` leaves in its (so far indeterminate)
slot: nothing written when `GetAt` failed, a null pointer when the allocation failed, the
released credential when `Initialize` failed, the live credential otherwise. -/
def fits (e : SlotEnv) (u : User) : Slot → Bool
  | .garbage => !SUCCEEDED e.getAt
  | .null => SUCCEEDED e.getAt && !e.alloc
  | .released h => SUCCEEDED e.getAt && e.alloc && FAILED e.init && h.user == u
  | .live h => slotBuilt e && h.user == u

/-- Collaborators for which the allocation fails for slot 0 only. -/
def firstAllocFails : Nat → SlotEnv :=
  fun i => { getAt := S_OK, alloc := decide (i ≠ 0), init := S_OK }

/-- Collaborators for which `Initialize` fails with `E_FAIL` for slot 1 only. -/
def secondInitFails : Nat → SlotEnv :=
  fun i => { getAt := S_OK, alloc := true, init := if i = 1 then E_FAIL else S_OK }

/-- Collaborators for which the allocation fails for slot 1 only. -/
def secondAllocFails : Nat → SlotEnv :=
  fun i => { getAt := S_OK, alloc := decide (i ≠ 1), init := S_OK }

/-- The three calls of the scenario: `CPUS_LOGON`, three users, one count query. -/
def logonThree (env : Nat → SlotEnv) : List Call :=
  [.selectScenario CPUS_LOGON, .setCandidateUsers [10, 11, 12], .queryCredentialCount env]

/-- The state after `logonThree secondInitFails` from a new provider: slot 1 still holds the
pointer to the credential released after its failed `Initialize`. -/
def holedByInit : State :=
  { _cpus := CPUS_LOGON
    _fRecreateEnumeratedCredentials := false
    _pCredProviderUserArray := some [10, 11, 12]
    _pCredentials := some [.live { id := 0, user := 10 }, .released { id := 1, user := 11 },
                           .live { id := 2, user := 12 }]
    _pCredential := some { id := 2, user := 12 }
    m_dwCredentialCount := 3
    m_autoLogonWithDefault := true
    nextId := 3
    log := [.construct (some { id := 0, user := 10 }), .initialised { id := 0, user := 10 } S_OK,
            .construct (some { id := 1, user := 11 }), .initialised { id := 1, user := 11 } E_FAIL,
            .release { id := 1, user := 11 },
            .construct (some { id := 2, user := 12 }), .initialised { id := 2, user := 12 } S_OK] }

/-- The state after `logonThree secondAllocFails` from a new provider: slot 1 holds the null
pointer of the failed allocation. -/
def holedByAlloc : State :=
  { _cpus := CPUS_LOGON
    _fRecreateEnumeratedCredentials := false
    _pCredProviderUserArray := some [10, 11, 12]
    _pCredentials := some [.live { id := 0, user := 10 }, .null, .live { id := 1, user := 12 }]
    _pCredential := some { id := 1, user := 12 }
    m_dwCredentialCount := 3
    m_autoLogonWithDefault := true
    nextId := 2
    log := [.construct (some { id := 0, user := 10 }), .initialised { id := 0, user := 10 } S_OK,
            .construct none,
            .construct (some { id := 1, user := 12 }), .initialised { id := 1, user := 12 } S_OK] }

/-! ## Frame lemmas -/

theorem release_ok_eq (s s1 : State) (h : _ReleaseEnumeratedCredentials s = .ok s1) :
    s1 = { s with _pCredentials := none, log := s1.log } := by
  unfold _ReleaseEnumeratedCredentials at h
  cases hp : s._pCredentials with
  | none =>
    rw [hp] at h
    simp only [Outcome.ok.injEq] at h
    subst h
    cases s
    simp_all
  | some arr =>
    rw [hp] at h
    simp only [] at h
    cases hl : releaseLoop (List.range s.m_dwCredentialCount) (arr, s.log) with
    | fault f => rw [hl] at h; simp at h
    | ok al =>
      rw [hl] at h
      simp only [Outcome.ok.injEq] at h
      subst h
      rfl

theorem releaseLoop_of_live (is : List Nat) :
    ∀ al : List Slot × List Event, is.Nodup →
      (∀ i ∈ is, ∃ h, al.1[i]? = some (.live h)) → ∃ al1, releaseLoop is al = .ok al1 := by
  induction is with
  | nil => intro al _ _; exact ⟨al, rfl⟩
  | cons i is ih =>
    intro al hnd hlive
    obtain ⟨h, hh⟩ := hlive i (List.mem_cons_self _ _)
    have hni : i ∉ is := (List.nodup_cons.mp hnd).1
    simp only [releaseLoop, releaseSlot, hh]
    apply ih _ (List.nodup_cons.mp hnd).2
    intro j hj
    obtain ⟨g, hg⟩ := hlive j (List.mem_cons_of_mem _ hj)
    refine ⟨g, ?_⟩
    have hij : i ≠ j := fun e => hni (e ▸ hj)
    simp only [List.getElem?_set_ne hij]
    exact hg

/-- The release completes on every set without a hole: when each slot below the count holds
a live credential (and also when no array is allocated). -/
theorem release_completes (s : State)
    (hlive : ∀ arr, s._pCredentials = some arr →
      ∀ i, i < s.m_dwCredentialCount → ∃ h, arr[i]? = some (.live h)) :
    ∃ s1, _ReleaseEnumeratedCredentials s = .ok s1 := by
  unfold _ReleaseEnumeratedCredentials
  cases hp : s._pCredentials with
  | none => exact ⟨s, rfl⟩
  | some arr =>
    obtain ⟨al, hal⟩ := releaseLoop_of_live (List.range s.m_dwCredentialCount) (arr, s.log)
      (List.nodup_range _) (fun i hi => hlive arr hp i (List.mem_range.mp hi))
    simp only [hal]
    exact ⟨_, rfl⟩

theorem release_with_flag (s : State) (b : Bool) :
    _ReleaseEnumeratedCredentials { s with _fRecreateEnumeratedCredentials := b }
      = (_ReleaseEnumeratedCredentials s).map
          (fun t => { t with _fRecreateEnumeratedCredentials := b }) := by
  unfold _ReleaseEnumeratedCredentials
  cases hp : s._pCredentials with
  | none => simp [Outcome.map, hp]
  | some arr =>
    simp only []
    cases hl : releaseLoop (List.range s.m_dwCredentialCount) (arr, s.log) with
    | fault f => simp [Outcome.map]
    | ok al => simp [Outcome.map]

theorem release_with_users (s : State) (x : Option (List User)) :
    _ReleaseEnumeratedCredentials { s with _pCredProviderUserArray := x }
      = (_ReleaseEnumeratedCredentials s).map
          (fun t => { t with _pCredProviderUserArray := x }) := by
  unfold _ReleaseEnumeratedCredentials
  cases hp : s._pCredentials with
  | none => simp [Outcome.map, hp]
  | some arr =>
    simp only []
    cases hl : releaseLoop (List.range s.m_dwCredentialCount) (arr, s.log) with
    | fault f => simp [Outcome.map]
    | ok al => simp [Outcome.map]

theorem sameFrame_refl (s : State) : sameFrame s s := by
  simp [sameFrame]

theorem sameFrame_trans {s t u : State} (h1 : sameFrame s t) (h2 : sameFrame t u) :
    sameFrame s u := by
  unfold sameFrame at h1 h2 ⊢
  rcases h1 with ⟨sCpus, sFlag, sUsers, sCount, sAuto, sLen⟩
  rcases h2 with ⟨tCpus, tFlag, tUsers, tCount, tAuto, tLen⟩
  rw [tCpus, tFlag, tUsers, tCount, tAuto, tLen]
  exact ⟨sCpus, sFlag, sUsers, sCount, sAuto, sLen⟩

theorem enumerateSlot_frame (e : SlotEnv) (i : Nat) (u : User) (s : State) :
    sameFrame s (enumerateSlot e i u s).2 := by
  unfold enumerateSlot sameFrame writeSlot
  cases hp : s._pCredentials <;> split_ifs <;> simp [hp]

theorem enumerateFrom_frame (env : Nat → SlotEnv) (us : List User) :
    ∀ (i : Nat) (acc : HRESULT × State), sameFrame acc.2 (enumerateFrom env us i acc).2 := by
  induction us with
  | nil => intro i acc; exact sameFrame_refl _
  | cons u us ih =>
    intro i acc
    simp only [enumerateFrom]
    exact sameFrame_trans (enumerateSlot_frame (env i) i u acc.2) (ih (i + 1) _)

theorem enumerate_of_users (env : Nat → SlotEnv) (s : State) (users : List User)
    (hu : s._pCredProviderUserArray = some users) :
    (_EnumerateCredentials env s).2._cpus = s._cpus
    ∧ (_EnumerateCredentials env s).2._fRecreateEnumeratedCredentials
        = s._fRecreateEnumeratedCredentials
    ∧ (_EnumerateCredentials env s).2._pCredProviderUserArray = some users
    ∧ (_EnumerateCredentials env s).2.m_dwCredentialCount = users.length
    ∧ (_EnumerateCredentials env s).2.m_autoLogonWithDefault = s.m_autoLogonWithDefault
    ∧ (_EnumerateCredentials env s).2._pCredentials.map List.length
        = if 0 < users.length then some users.length else s._pCredentials.map List.length := by
  unfold _EnumerateCredentials
  split
  · rename_i h
    rw [hu] at h
    cases h
  · rename_i us h
    rw [hu] at h
    cases h
    simp only []
    split_ifs with hn
    · obtain ⟨a1, a2, a3, a4, a5, a6⟩ := enumerateFrom_frame env users 0
        (E_UNEXPECTED, { s with m_dwCredentialCount := users.length,
                                _pCredentials := some (List.replicate users.length .garbage) })
      simp only [] at a1 a2 a3 a4 a5 a6
      refine ⟨a1, a2, a3.trans hu, a4, a5, ?_⟩
      rw [a6]
      simp
    · simp [hu]

theorem enumerate_keeps (env : Nat → SlotEnv) (s : State) :
    (_EnumerateCredentials env s).2._cpus = s._cpus
    ∧ (_EnumerateCredentials env s).2._fRecreateEnumeratedCredentials
        = s._fRecreateEnumeratedCredentials
    ∧ (_EnumerateCredentials env s).2._pCredProviderUserArray = s._pCredProviderUserArray
    ∧ (_EnumerateCredentials env s).2.m_autoLogonWithDefault = s.m_autoLogonWithDefault := by
  cases hu : s._pCredProviderUserArray with
  | none => simp [_EnumerateCredentials, hu]
  | some users =>
    obtain ⟨a1, a2, a3, _, a5, _⟩ := enumerate_of_users env s users hu
    exact ⟨a1, a2, a3, a5⟩

theorem create_keeps (env : Nat → SlotEnv) (s : State) :
    (_CreateEnumeratedCredentials env s)._cpus = s._cpus
    ∧ (_CreateEnumeratedCredentials env s)._fRecreateEnumeratedCredentials
        = s._fRecreateEnumeratedCredentials
    ∧ (_CreateEnumeratedCredentials env s)._pCredProviderUserArray = s._pCredProviderUserArray
    ∧ (_CreateEnumeratedCredentials env s).m_autoLogonWithDefault = s.m_autoLogonWithDefault := by
  unfold _CreateEnumeratedCredentials
  split_ifs
  · exact enumerate_keeps env s
  · simp

theorem count_query_clean (env : Nat → SlotEnv) (s : State)
    (hf : s._fRecreateEnumeratedCredentials = false) :
    GetCredentialCount env s
      = .ok ({ count := s.m_dwCredentialCount
               defaultIndex := CREDENTIAL_PROVIDER_NO_DEFAULT
               autoLogonWithDefault := s.m_autoLogonWithDefault }, s) := by
  simp [GetCredentialCount, hf]

theorem count_query_dirty (env : Nat → SlotEnv) (s s1 : State)
    (hf : s._fRecreateEnumeratedCredentials = true)
    (hr : _ReleaseEnumeratedCredentials s = .ok s1) :
    GetCredentialCount env s
      = .ok ({ count := (_CreateEnumeratedCredentials env
                          { s1 with _fRecreateEnumeratedCredentials := false }).m_dwCredentialCount
               defaultIndex := CREDENTIAL_PROVIDER_NO_DEFAULT
               autoLogonWithDefault := s.m_autoLogonWithDefault },
             _CreateEnumeratedCredentials env
               { s1 with _fRecreateEnumeratedCredentials := false }) := by
  unfold GetCredentialCount
  rw [if_pos hf, release_with_flag, hr]
  simp [Outcome.map]

/-! ## Scenario selection -/

/-- C6. The outcome of `SetUsageScenario` depends on the tag alone. It returns `S_OK` exactly
for `CPUS_LOGON` and `CPUS_UNLOCK_WORKSTATION`, and then `_cpus` is the tag and the rebuild
flag is set, everything else being kept (also when the tag was already selected); it returns
`E_NOTIMPL` for `CPUS_CHANGE_PASSWORD` and `CPUS_CREDUI` and `E_INVALIDARG` for every other
tag, and in both cases the state is returned as it was. -/
theorem SetUsageScenario_by_tag (cpus : CREDENTIAL_PROVIDER_USAGE_SCENARIO) (s : State) :
    ((SetUsageScenario cpus s).1 = S_OK ↔ (cpus = CPUS_LOGON ∨ cpus = CPUS_UNLOCK_WORKSTATION))
    ∧ ((cpus = CPUS_LOGON ∨ cpus = CPUS_UNLOCK_WORKSTATION) →
        SetUsageScenario cpus s =
          (S_OK, { s with _cpus := cpus, _fRecreateEnumeratedCredentials := true }))
    ∧ ((cpus = CPUS_CHANGE_PASSWORD ∨ cpus = CPUS_CREDUI) →
        SetUsageScenario cpus s = (E_NOTIMPL, s))
    ∧ ((cpus ≠ CPUS_LOGON ∧ cpus ≠ CPUS_UNLOCK_WORKSTATION ∧
          cpus ≠ CPUS_CHANGE_PASSWORD ∧ cpus ≠ CPUS_CREDUI) →
        SetUsageScenario cpus s = (E_INVALIDARG, s)) := by
  refine ⟨?_, ?_, ?_, ?_⟩
  · unfold SetUsageScenario
    split_ifs with h1 h2
    · simp [h1]
    · simp [h1, S_OK, E_NOTIMPL]
    · simp [h1, S_OK, E_INVALIDARG]
  · intro h
    simp [SetUsageScenario, h]
  · intro h
    have h1 : ¬ (cpus = CPUS_LOGON ∨ cpus = CPUS_UNLOCK_WORKSTATION) := by
      rcases h with h | h <;> simp [h, CPUS_LOGON, CPUS_UNLOCK_WORKSTATION, CPUS_CHANGE_PASSWORD,
        CPUS_CREDUI]
    simp [SetUsageScenario, h, h1]
  · rintro ⟨h1, h2, h3, h4⟩
    simp [SetUsageScenario, h1, h2, h3, h4]

/-! ## Indexed access -/

/-- C4. For every state and every index at or beyond the stored count, `GetCredentialAt`
returns `E_INVALIDARG` with a null credential and leaves the state as it was. -/
theorem GetCredentialAt_beyond_count (s : State) (i : Nat) (h : s.m_dwCredentialCount ≤ i) :
    GetCredentialAt i s = .ok ({ hr := E_INVALIDARG, credential := none }, s) := by
  unfold GetCredentialAt
  rw [if_neg (Nat.not_lt.mpr h)]

/-- C4, witness: under `CPUS_UNLOCK_WORKSTATION` with an empty user array the count query
reports 0 and `GetCredentialAt 0` returns `E_INVALIDARG`. -/
theorem GetCredentialAt_beyond_count_witness :
    run [.selectScenario CPUS_UNLOCK_WORKSTATION, .setCandidateUsers [],
         .queryCredentialCount allOk] (new CPUS_INVALID false)
      = .ok ([.scenario S_OK, .users S_OK,
              .count { count := 0, defaultIndex := CREDENTIAL_PROVIDER_NO_DEFAULT,
                       autoLogonWithDefault := true }], unlockedEmpty)
    ∧ unlockedEmpty.m_dwCredentialCount ≤ 0
    ∧ GetCredentialAt 0 unlockedEmpty
      = .ok ({ hr := E_INVALIDARG, credential := none }, unlockedEmpty) :=
  ⟨by decide, by decide, GetCredentialAt_beyond_count unlockedEmpty 0 (by decide)⟩

/-- C8. `SetUserArray` keeps the count, the credential array and the event log (so it
releases no credential), and `GetCredentialAt` gives for every index the same result, or
the same fault, whether it runs before or after `SetUserArray`. -/
theorem SetUserArray_keeps_credentials (users : List User) (s : State) :
    (SetUserArray users s).2.m_dwCredentialCount = s.m_dwCredentialCount
    ∧ (SetUserArray users s).2._pCredentials = s._pCredentials
    ∧ (SetUserArray users s).2.log = s.log
    ∧ ∀ i, GetCredentialAt i (SetUserArray users s).2
        = (GetCredentialAt i s).map (fun rt => (rt.1, (SetUserArray users rt.2).2)) := by
  refine ⟨rfl, rfl, rfl, ?_⟩
  intro i
  unfold GetCredentialAt
  simp only [SetUserArray]
  split_ifs with h
  · cases hp : s._pCredentials with
    | none => simp [Outcome.map]
    | some arr =>
      simp only []
      cases hg : arr[i]? with
      | none => simp [Outcome.map]
      | some v => cases v <;> simp [Outcome.map]
  · simp [Outcome.map]

/-! ## The count query -/

/-- C5. Once a `GetCredentialCount` has completed, the rebuild flag is clear, and a second
`GetCredentialCount` right after it, whatever the collaborators would answer, returns the
same count, default index and auto-logon value and the very same state: it writes no member
and makes no call on any credential (the event log is part of the state). The default index
is `CREDENTIAL_PROVIDER_NO_DEFAULT`. -/
theorem GetCredentialCount_idempotent (env1 env2 : Nat → SlotEnv) (s s1 : State)
    (r1 : CountResult) (h : GetCredentialCount env1 s = .ok (r1, s1)) :
    s1._fRecreateEnumeratedCredentials = false
    ∧ GetCredentialCount env2 s1 = .ok (r1, s1)
    ∧ r1.defaultIndex = CREDENTIAL_PROVIDER_NO_DEFAULT := by
  cases hf : s._fRecreateEnumeratedCredentials with
  | false =>
    rw [count_query_clean env1 s hf] at h
    simp only [Outcome.ok.injEq, Prod.mk.injEq] at h
    obtain ⟨hr, hs⟩ := h
    subst hs
    subst hr
    exact ⟨hf, count_query_clean env2 s hf, rfl⟩
  | true =>
    cases hrel : _ReleaseEnumeratedCredentials s with
    | fault f =>
      unfold GetCredentialCount at h
      rw [if_pos hf, release_with_flag, hrel] at h
      simp [Outcome.map] at h
    | ok t =>
      rw [count_query_dirty env1 s t hf hrel] at h
      simp only [Outcome.ok.injEq, Prod.mk.injEq] at h
      obtain ⟨hr, hs⟩ := h
      subst hs
      subst hr
      obtain ⟨_, k2, _, k4⟩ := create_keeps env1 { t with _fRecreateEnumeratedCredentials := false }
      have hauto : t.m_autoLogonWithDefault = s.m_autoLogonWithDefault := by
        rw [release_ok_eq s t hrel]
      have k4a : (_CreateEnumeratedCredentials env1
          { t with _fRecreateEnumeratedCredentials := false }).m_autoLogonWithDefault
            = s.m_autoLogonWithDefault := k4.trans hauto
      refine ⟨k2, ?_, rfl⟩
      rw [count_query_clean env2 _ k2, k4a]

/-- C5, witness: the first query rebuilds two credentials from `logonTwoUsers`; the second
one, even with collaborators that would fail, returns the same answer and state. -/
theorem GetCredentialCount_idempotent_witness :
    GetCredentialCount allOk logonTwoUsers
      = .ok ({ count := 2, defaultIndex := CREDENTIAL_PROVIDER_NO_DEFAULT,
               autoLogonWithDefault := true }, builtTwo)
    ∧ builtTwo._fRecreateEnumeratedCredentials = false
    ∧ GetCredentialCount allocFails builtTwo
      = .ok ({ count := 2, defaultIndex := CREDENTIAL_PROVIDER_NO_DEFAULT,
               autoLogonWithDefault := true }, builtTwo)
    ∧ ({ count := 2, defaultIndex := CREDENTIAL_PROVIDER_NO_DEFAULT,
         autoLogonWithDefault := true } : CountResult).defaultIndex
      = CREDENTIAL_PROVIDER_NO_DEFAULT :=
  ⟨by decide,
   GetCredentialCount_idempotent allOk allocFails logonTwoUsers builtTwo
     { count := 2, defaultIndex := CREDENTIAL_PROVIDER_NO_DEFAULT, autoLogonWithDefault := true }
     (by decide)⟩

theorem create_count (env : Nat → SlotEnv) (t : State) (users : List User)
    (hc : t._cpus = CPUS_LOGON ∨ t._cpus = CPUS_UNLOCK_WORKSTATION)
    (hu : t._pCredProviderUserArray = some users) :
    (_CreateEnumeratedCredentials env t).m_dwCredentialCount = users.length
    ∧ (_CreateEnumeratedCredentials env t)._pCredentials.map List.length
        = (if 0 < users.length then some users.length else t._pCredentials.map List.length)
    ∧ (_CreateEnumeratedCredentials env t)._fRecreateEnumeratedCredentials
        = t._fRecreateEnumeratedCredentials := by
  unfold _CreateEnumeratedCredentials
  rw [if_pos hc]
  obtain ⟨_, a2, _, a4, _, a6⟩ := enumerate_of_users env t users hu
  exact ⟨a4, a6, a2⟩

/-- C3. When `GetCredentialCount` finds the rebuild flag set, the scenario `CPUS_LOGON` or
`CPUS_UNLOCK_WORKSTATION` and a user array of `n` users, and the release of the previous set
has completed so that the rebuild takes place, it returns the count `n`, whatever the
collaborators answer for each slot (all may fail) and also for `n = 0`; the stored count is
`n`, the array has `n` slots when `0 < n` and is `NULL` when `n = 0`, and the flag is clear. -/
theorem GetCredentialCount_rebuild_count (env : Nat → SlotEnv) (s s1 : State)
    (users : List User)
    (hf : s._fRecreateEnumeratedCredentials = true)
    (hc : s._cpus = CPUS_LOGON ∨ s._cpus = CPUS_UNLOCK_WORKSTATION)
    (hu : s._pCredProviderUserArray = some users)
    (hr : _ReleaseEnumeratedCredentials s = .ok s1) :
    ∃ s2, GetCredentialCount env s
        = .ok ({ count := users.length
                 defaultIndex := CREDENTIAL_PROVIDER_NO_DEFAULT
                 autoLogonWithDefault := s.m_autoLogonWithDefault }, s2)
      ∧ s2.m_dwCredentialCount = users.length
      ∧ s2._pCredentials.map List.length = (if 0 < users.length then some users.length else none)
      ∧ s2._fRecreateEnumeratedCredentials = false := by
  have hs1 := release_ok_eq s s1 hr
  have hp1 : s1._pCredentials = none := by rw [hs1]
  obtain ⟨c1, c2, c3⟩ := create_count env { s1 with _fRecreateEnumeratedCredentials := false }
    users (by rw [hs1]; exact hc) (by rw [hs1]; exact hu)
  have hq := count_query_dirty env s s1 hf hr
  rw [c1] at hq
  refine ⟨_, hq, c1, ?_, c3⟩
  rw [c2]
  simp [hp1]

/-- C3, witness: the set `builtTwo` under a re-selected scenario, with every allocation of
the rebuild failing; its two credentials are released and the count returned is 2. -/
theorem GetCredentialCount_rebuild_count_witness :
    reselected._fRecreateEnumeratedCredentials = true
    ∧ (reselected._cpus = CPUS_LOGON ∨ reselected._cpus = CPUS_UNLOCK_WORKSTATION)
    ∧ reselected._pCredProviderUserArray = some [10, 11]
    ∧ _ReleaseEnumeratedCredentials reselected
        = .ok { reselected with
                _pCredentials := none
                log := reselected.log
                  ++ [.release { id := 0, user := 10 }, .release { id := 1, user := 11 }] }
    ∧ ∃ s2, GetCredentialCount allocFails reselected
        = .ok ({ count := [10, 11].length
                 defaultIndex := CREDENTIAL_PROVIDER_NO_DEFAULT
                 autoLogonWithDefault := reselected.m_autoLogonWithDefault }, s2)
      ∧ s2.m_dwCredentialCount = [10, 11].length
      ∧ s2._pCredentials.map List.length
          = (if 0 < [10, 11].length then some [10, 11].length else none)
      ∧ s2._fRecreateEnumeratedCredentials = false :=
  ⟨by decide, by decide, by decide, by decide,
   GetCredentialCount_rebuild_count allocFails reselected
     { reselected with
       _pCredentials := none
       log := reselected.log
         ++ [.release { id := 0, user := 10 }, .release { id := 1, user := 11 }] }
     [10, 11] (by decide) (by decide) (by decide) (by decide)⟩

/-! ## Replacing the user array -/

/-- C1, counterexample. The state `builtTwo` is reached under `CPUS_LOGON` by a count query
over two users. `SetUserArray` with three users leaves its rebuild flag clear, and the next
count query performs no rebuild: it returns the count 2 of the previous array, not 3. -/
theorem SetUserArray_marks_dirty_counterexample :
    run [.selectScenario CPUS_LOGON, .setCandidateUsers [10, 11], .queryCredentialCount allOk]
        (new CPUS_INVALID false)
      = .ok ([.scenario S_OK, .users S_OK,
              .count { count := 2, defaultIndex := CREDENTIAL_PROVIDER_NO_DEFAULT,
                       autoLogonWithDefault := true }], builtTwo)
    ∧ builtTwo._cpus = CPUS_LOGON
    ∧ (SetUserArray [20, 21, 22] builtTwo).2._fRecreateEnumeratedCredentials = false
    ∧ GetCredentialCount allOk (SetUserArray [20, 21, 22] builtTwo).2
      = .ok ({ count := 2, defaultIndex := CREDENTIAL_PROVIDER_NO_DEFAULT,
               autoLogonWithDefault := true }, (SetUserArray [20, 21, 22] builtTwo).2)
    ∧ [20, 21, 22].length ≠ 2 := by
  decide

/-- C1, amended. `SetUserArray` returns `S_OK`, stores the array and leaves the rebuild flag
as it was. When the flag is set (as it is after a successful `SetUsageScenario`), the
scenario is `CPUS_LOGON` or `CPUS_UNLOCK_WORKSTATION` and the release of the previous set
completes, the next `GetCredentialCount` rebuilds and returns the length of the new array;
when the flag is clear it stays clear and the next `GetCredentialCount` returns the stored
count and changes nothing. -/
theorem SetUserArray_keeps_flag (users : List User) (s : State) :
    SetUserArray users s = (S_OK, { s with _pCredProviderUserArray := some users })
    ∧ (SetUserArray users s).2._fRecreateEnumeratedCredentials
        = s._fRecreateEnumeratedCredentials
    ∧ (s._fRecreateEnumeratedCredentials = true →
        (s._cpus = CPUS_LOGON ∨ s._cpus = CPUS_UNLOCK_WORKSTATION) →
        ∀ (env : Nat → SlotEnv) (s1 : State), _ReleaseEnumeratedCredentials s = .ok s1 →
          ∃ s2, GetCredentialCount env (SetUserArray users s).2
            = .ok ({ count := users.length
                     defaultIndex := CREDENTIAL_PROVIDER_NO_DEFAULT
                     autoLogonWithDefault := s.m_autoLogonWithDefault }, s2)
            ∧ s2._fRecreateEnumeratedCredentials = false)
    ∧ (s._fRecreateEnumeratedCredentials = false →
        ∀ (env : Nat → SlotEnv), GetCredentialCount env (SetUserArray users s).2
          = .ok ({ count := s.m_dwCredentialCount
                   defaultIndex := CREDENTIAL_PROVIDER_NO_DEFAULT
                   autoLogonWithDefault := s.m_autoLogonWithDefault },
                 (SetUserArray users s).2)) := by
  refine ⟨rfl, rfl, ?_, ?_⟩
  · intro hf hc env s1 hr
    have hr2 : _ReleaseEnumeratedCredentials (SetUserArray users s).2
        = .ok { s1 with _pCredProviderUserArray := some users } := by
      simp only [SetUserArray]
      rw [release_with_users, hr]
      rfl
    have hs1 := release_ok_eq s s1 hr
    obtain ⟨c1, _, c3⟩ := create_count env
      { s1 with _pCredProviderUserArray := some users, _fRecreateEnumeratedCredentials := false }
      users (by rw [hs1]; exact hc) rfl
    have hq := count_query_dirty env (SetUserArray users s).2
      { s1 with _pCredProviderUserArray := some users } hf hr2
    rw [c1] at hq
    exact ⟨_, hq, c3⟩
  · intro hf env
    exact count_query_clean env (SetUserArray users s).2 hf

/-- C1, amended, witness: with the flag set under `CPUS_LOGON`, replacing the array by three
users makes the next count query return 3. -/
theorem SetUserArray_keeps_flag_witness :
    logonTwoUsers._fRecreateEnumeratedCredentials = true
    ∧ (logonTwoUsers._cpus = CPUS_LOGON ∨ logonTwoUsers._cpus = CPUS_UNLOCK_WORKSTATION)
    ∧ _ReleaseEnumeratedCredentials logonTwoUsers = .ok logonTwoUsers
    ∧ ∃ s2, GetCredentialCount allOk (SetUserArray [20, 21, 22] logonTwoUsers).2
        = .ok ({ count := [20, 21, 22].length
                 defaultIndex := CREDENTIAL_PROVIDER_NO_DEFAULT
                 autoLogonWithDefault := logonTwoUsers.m_autoLogonWithDefault }, s2)
        ∧ s2._fRecreateEnumeratedCredentials = false :=
  ⟨by decide, by decide, by decide,
   (SetUserArray_keeps_flag [20, 21, 22] logonTwoUsers).2.2.1 (by decide) (by decide)
     allOk logonTwoUsers (by decide)⟩

/-! ## Unsupported scenarios -/

theorem consistent_new (cpus0 : CREDENTIAL_PROVIDER_USAGE_SCENARIO) (flag0 : Bool) :
    Consistent (new cpus0 flag0) :=
  Or.inl ⟨rfl, rfl⟩

theorem consistent_SetUsageScenario (cpus : CREDENTIAL_PROVIDER_USAGE_SCENARIO) (s : State)
    (hc : Consistent s) : Consistent (SetUsageScenario cpus s).2 := by
  unfold SetUsageScenario
  split_ifs with h1 h2
  · rcases hc with ⟨a, b⟩ | ⟨arr, a, b, c, _, e⟩
    · exact Or.inl ⟨a, b⟩
    · exact Or.inr ⟨arr, a, b, c, h1, e⟩
  · exact hc
  · exact hc

theorem consistent_SetUserArray (users : List User) (s : State) (hc : Consistent s) :
    Consistent (SetUserArray users s).2 := by
  rcases hc with ⟨a, b⟩ | ⟨arr, a, b, c, d, _⟩
  · exact Or.inl ⟨a, b⟩
  · exact Or.inr ⟨arr, a, b, c, d, by simp [SetUserArray]⟩

theorem GetCredentialAt_ok_state (i : Nat) (s s1 : State) (r : AtResult)
    (h : GetCredentialAt i s = .ok (r, s1)) : s1 = { s with log := s1.log } := by
  unfold GetCredentialAt at h
  split_ifs at h with hi
  · cases hp : s._pCredentials with
    | none => rw [hp] at h; simp at h
    | some arr =>
      rw [hp] at h
      simp only [] at h
      cases hg : arr[i]? with
      | none => rw [hg] at h; simp at h
      | some v =>
        rw [hg] at h
        cases v <;> simp at h
        rw [← h.2]
  · simp only [Outcome.ok.injEq, Prod.mk.injEq] at h
    rw [← h.2]

theorem consistent_GetCredentialAt (i : Nat) (s s1 : State) (r : AtResult)
    (h : GetCredentialAt i s = .ok (r, s1)) (hc : Consistent s) : Consistent s1 := by
  rw [GetCredentialAt_ok_state i s s1 r h]
  exact hc

theorem consistent_create (env : Nat → SlotEnv) (s t : State) (hc : Consistent s)
    (hcp : t._cpus = s._cpus)
    (hua : t._pCredProviderUserArray = s._pCredProviderUserArray)
    (hpc : t._pCredentials = none)
    (hcn : t.m_dwCredentialCount = s.m_dwCredentialCount) :
    Consistent (_CreateEnumeratedCredentials env t) := by
  have hzero : (¬ (s._cpus = CPUS_LOGON ∨ s._cpus = CPUS_UNLOCK_WORKSTATION)
      ∨ s._pCredProviderUserArray = none) → t.m_dwCredentialCount = 0 := by
    intro hno
    rw [hcn]
    rcases hc with ⟨_, b⟩ | ⟨_, _, _, _, d, e⟩
    · exact b
    · rcases hno with hno | hno
      · exact absurd d hno
      · exact absurd hno e
  unfold _CreateEnumeratedCredentials
  by_cases hsup : t._cpus = CPUS_LOGON ∨ t._cpus = CPUS_UNLOCK_WORKSTATION
  · rw [if_pos hsup]
    cases hu : t._pCredProviderUserArray with
    | none =>
      have hen : _EnumerateCredentials env t = (E_UNEXPECTED, t) := by
        simp [_EnumerateCredentials, hu]
      rw [hen]
      exact Or.inl ⟨hpc, hzero (Or.inr (hua.symm.trans hu))⟩
    | some users =>
      obtain ⟨a1, _, a3, a4, _, a6⟩ := enumerate_of_users env t users hu
      by_cases hn : 0 < users.length
      · rw [if_pos hn] at a6
        cases hq : (_EnumerateCredentials env t).2._pCredentials with
        | none => rw [hq] at a6; simp at a6
        | some arr =>
          rw [hq] at a6
          simp only [Option.map_some', Option.some.injEq] at a6
          refine Or.inr ⟨arr, hq, by rw [a6, a4], by rw [a4]; exact hn, ?_, ?_⟩
          · rw [a1]; exact hsup
          · rw [a3]; simp
      · rw [if_neg hn] at a6
        simp only [hpc, Option.map_none'] at a6
        refine Or.inl ⟨?_, ?_⟩
        · cases hq : (_EnumerateCredentials env t).2._pCredentials with
          | none => rfl
          | some arr => rw [hq] at a6; simp at a6
        · rw [a4]; omega
  · rw [if_neg hsup]
    exact Or.inl ⟨hpc, hzero (Or.inl (by rw [← hcp]; exact hsup))⟩

theorem consistent_GetCredentialCount (env : Nat → SlotEnv) (s s1 : State) (r : CountResult)
    (h : GetCredentialCount env s = .ok (r, s1)) (hc : Consistent s) : Consistent s1 := by
  cases hf : s._fRecreateEnumeratedCredentials with
  | false =>
    rw [count_query_clean env s hf] at h
    simp only [Outcome.ok.injEq, Prod.mk.injEq] at h
    rw [← h.2]
    exact hc
  | true =>
    cases hrel : _ReleaseEnumeratedCredentials s with
    | fault f =>
      unfold GetCredentialCount at h
      rw [if_pos hf, release_with_flag, hrel] at h
      simp [Outcome.map] at h
    | ok t =>
      rw [count_query_dirty env s t hf hrel] at h
      simp only [Outcome.ok.injEq, Prod.mk.injEq] at h
      rw [← h.2]
      have ht := release_ok_eq s t hrel
      have hcp : t._cpus = s._cpus := by rw [ht]
      have hua : t._pCredProviderUserArray = s._pCredProviderUserArray := by rw [ht]
      have hpc : t._pCredentials = none := by rw [ht]
      have hcn : t.m_dwCredentialCount = s.m_dwCredentialCount := by rw [ht]
      exact consistent_create env s { t with _fRecreateEnumeratedCredentials := false } hc
        hcp hua hpc hcn

theorem consistent_run (calls : List Call) :
    ∀ (s s1 : State) (rs : List Response), Consistent s → run calls s = .ok (rs, s1) →
      Consistent s1 := by
  induction calls with
  | nil =>
    intro s s1 rs hc h
    simp only [run, Outcome.ok.injEq, Prod.mk.injEq] at h
    rw [← h.2]
    exact hc
  | cons c cs ih =>
    intro s s1 rs hc h
    simp only [run] at h
    cases hst : step c s with
    | fault f => rw [hst] at h; simp at h
    | ok rt =>
      obtain ⟨r, t⟩ := rt
      rw [hst] at h
      simp only [] at h
      cases hrun : run cs t with
      | fault f => rw [hrun] at h; simp at h
      | ok rest =>
        obtain ⟨rs1, t1⟩ := rest
        rw [hrun] at h
        simp only [Outcome.ok.injEq, Prod.mk.injEq] at h
        rw [← h.2]
        refine ih t t1 rs1 ?_ hrun
        cases c with
        | selectScenario cpus =>
          simp only [step, Outcome.ok.injEq, Prod.mk.injEq] at hst
          rw [← hst.2]
          exact consistent_SetUsageScenario cpus s hc
        | setCandidateUsers us =>
          simp only [step, Outcome.ok.injEq, Prod.mk.injEq] at hst
          rw [← hst.2]
          exact consistent_SetUserArray us s hc
        | queryCredentialCount env =>
          simp only [step] at hst
          cases hq : GetCredentialCount env s with
          | fault f => rw [hq] at hst; simp at hst
          | ok q =>
            obtain ⟨q1, q2⟩ := q
            rw [hq] at hst
            simp only [Outcome.ok.injEq, Prod.mk.injEq] at hst
            rw [← hst.2]
            exact consistent_GetCredentialCount env s q2 q1 hq hc
        | getCredentialAt i =>
          simp only [step] at hst
          cases hq : GetCredentialAt i s with
          | fault f => rw [hq] at hst; simp at hst
          | ok q =>
            obtain ⟨q1, q2⟩ := q
            rw [hq] at hst
            simp only [Outcome.ok.injEq, Prod.mk.injEq] at hst
            rw [← hst.2]
            exact consistent_GetCredentialAt i s q2 q1 hq hc

theorem releaseLoop_in_bounds (is : List Nat) :
    ∀ al : List Slot × List Event, (∀ i ∈ is, i < al.1.length) →
      releaseLoop is al ≠ .fault .outOfBounds ∧ releaseLoop is al ≠ .fault .nullArray := by
  induction is with
  | nil => intro al _; simp [releaseLoop]
  | cons i is ih =>
    intro al hb
    have hi : i < al.1.length := hb i (List.mem_cons_self _ _)
    simp only [releaseLoop, releaseSlot]
    rw [List.getElem?_eq_getElem hi]
    cases hv : al.1[i] with
    | garbage => simp
    | null => simp
    | released h => simp
    | live h =>
      simp only []
      apply ih
      intro j hj
      simp only [List.length_set]
      exact hb j (List.mem_cons_of_mem _ hj)

/-- C10. In every state reached from a new provider (whatever its declared initial scenario
and flag) by a finite sequence of calls run to completion: a positive stored count comes with
an allocated array of exactly that many slots, and a `NULL` array comes with count 0 (no
stale count is left); hence every index below the count addresses a slot of the array,
`GetCredentialAt` never indexes a `NULL` array nor past its end, and neither does the
release loop. -/
theorem count_matches_storage (cpus0 : CREDENTIAL_PROVIDER_USAGE_SCENARIO) (flag0 : Bool)
    (calls : List Call) (rs : List Response) (s : State)
    (h : run calls (new cpus0 flag0) = .ok (rs, s)) :
    (0 < s.m_dwCredentialCount →
        ∃ arr, s._pCredentials = some arr ∧ arr.length = s.m_dwCredentialCount)
    ∧ (s._pCredentials = none → s.m_dwCredentialCount = 0)
    ∧ (∀ i, i < s.m_dwCredentialCount →
        ∃ arr v, s._pCredentials = some arr ∧ arr[i]? = some v)
    ∧ (∀ i, GetCredentialAt i s ≠ .fault .nullArray
          ∧ GetCredentialAt i s ≠ .fault .outOfBounds)
    ∧ (_ReleaseEnumeratedCredentials s ≠ .fault .nullArray
          ∧ _ReleaseEnumeratedCredentials s ≠ .fault .outOfBounds) := by
  have hc : Consistent s := consistent_run calls _ s rs (consistent_new cpus0 flag0) h
  have h1 : 0 < s.m_dwCredentialCount →
      ∃ arr, s._pCredentials = some arr ∧ arr.length = s.m_dwCredentialCount := by
    intro hpos
    rcases hc with ⟨_, b⟩ | ⟨arr, a, b, _⟩
    · omega
    · exact ⟨arr, a, b⟩
  have h2 : ∀ i, i < s.m_dwCredentialCount →
      ∃ arr v, s._pCredentials = some arr ∧ arr[i]? = some v := by
    intro i hi
    obtain ⟨arr, a, b⟩ := h1 (by omega)
    exact ⟨arr, arr[i], a, List.getElem?_eq_getElem (by omega)⟩
  refine ⟨h1, ?_, h2, ?_, ?_⟩
  · intro hn
    rcases hc with ⟨_, b⟩ | ⟨arr, a, _⟩
    · exact b
    · rw [hn] at a; cases a
  · intro i
    unfold GetCredentialAt
    split_ifs with hi
    · obtain ⟨arr, v, a, b⟩ := h2 i hi
      rw [a]
      simp only [b]
      cases v <;> simp
    · simp
  · unfold _ReleaseEnumeratedCredentials
    cases hp : s._pCredentials with
    | none => simp
    | some arr =>
      simp only []
      have hlen : arr.length = s.m_dwCredentialCount := by
        rcases hc with ⟨a, _⟩ | ⟨arr1, a, b, _⟩
        · rw [hp] at a; cases a
        · rw [hp] at a; cases a; exact b
      have hb := releaseLoop_in_bounds (List.range s.m_dwCredentialCount) (arr, s.log)
        (by intro i hi; simpa [hlen] using hi)
      cases hl : releaseLoop (List.range s.m_dwCredentialCount) (arr, s.log) with
      | fault f =>
        rw [hl] at hb
        simp only [ne_eq, Outcome.fault.injEq] at hb ⊢
        exact ⟨hb.2, hb.1⟩
      | ok al => simp

/-- C10, witness: the state `builtTwo`, reached by a rebuild over two users. -/
theorem count_matches_storage_witness :
    run [.selectScenario CPUS_LOGON, .setCandidateUsers [10, 11], .queryCredentialCount allOk]
        (new CPUS_INVALID false)
      = .ok ([.scenario S_OK, .users S_OK,
              .count { count := 2, defaultIndex := CREDENTIAL_PROVIDER_NO_DEFAULT,
                       autoLogonWithDefault := true }], builtTwo)
    ∧ ((0 < builtTwo.m_dwCredentialCount →
        ∃ arr, builtTwo._pCredentials = some arr ∧ arr.length = builtTwo.m_dwCredentialCount)
    ∧ (builtTwo._pCredentials = none → builtTwo.m_dwCredentialCount = 0)
    ∧ (∀ i, i < builtTwo.m_dwCredentialCount →
        ∃ arr v, builtTwo._pCredentials = some arr ∧ arr[i]? = some v)
    ∧ (∀ i, GetCredentialAt i builtTwo ≠ .fault .nullArray
          ∧ GetCredentialAt i builtTwo ≠ .fault .outOfBounds)
    ∧ (_ReleaseEnumeratedCredentials builtTwo ≠ .fault .nullArray
          ∧ _ReleaseEnumeratedCredentials builtTwo ≠ .fault .outOfBounds)) :=
  ⟨by decide,
   count_matches_storage CPUS_INVALID false
     [.selectScenario CPUS_LOGON, .setCandidateUsers [10, 11], .queryCredentialCount allOk]
     [.scenario S_OK, .users S_OK,
      .count { count := 2, defaultIndex := CREDENTIAL_PROVIDER_NO_DEFAULT,
               autoLogonWithDefault := true }] builtTwo (by decide)⟩

/-! ## The enumeration loop -/

theorem enumerateSlot_result (e : SlotEnv) (i : Nat) (u : User) (s : State) :
    (enumerateSlot e i u s).1 = slotResult e := by
  unfold enumerateSlot slotResult
  split_ifs <;> rfl

theorem enumerateFrom_result (env : Nat → SlotEnv) (us : List User) :
    ∀ (i : Nat) (acc : HRESULT × State), us ≠ [] →
      (enumerateFrom env us i acc).1 = slotResult (env (i + us.length - 1)) := by
  induction us with
  | nil => intro i acc h; exact absurd rfl h
  | cons u us ih =>
    intro i acc _
    simp only [enumerateFrom]
    cases us with
    | nil =>
      simp only [enumerateFrom, List.length_singleton, Nat.add_sub_cancel]
      exact enumerateSlot_result (env i) i u acc.2
    | cons v vs =>
      rw [ih (i + 1) _ (List.cons_ne_nil v vs)]
      congr 2
      simp only [List.length_cons]
      omega

theorem slotResult_failed (e : SlotEnv) : FAILED (slotResult e) = !slotBuilt e := by
  unfold slotResult slotBuilt SUCCEEDED FAILED
  by_cases h1 : 0 ≤ e.getAt
  · cases h2 : e.alloc
    · simp [h1, E_OUTOFMEMORY]
    · simp [h1]
  · simp only [h1, decide_False, Bool.false_and, Bool.not_false, decide_eq_true_eq]
    rw [if_neg (by simp)]
    exact not_le.mp h1

theorem enumerateSlot_slots (e : SlotEnv) (i : Nat) (u : User) (s : State) (arr : List Slot)
    (hp : s._pCredentials = some arr) (hi : i < arr.length)
    (hg : arr[i]? = some .garbage) :
    ∃ arr1, (enumerateSlot e i u s).2._pCredentials = some arr1
      ∧ arr1.length = arr.length
      ∧ (∀ j, j ≠ i → arr1[j]? = arr[j]?)
      ∧ ∃ v, arr1[i]? = some v ∧ fits e u v = true := by
  unfold enumerateSlot
  by_cases h1 : SUCCEEDED e.getAt = true
  · rw [if_pos h1]
    cases h2 : e.alloc
    · refine ⟨arr.set i .null, by simp [writeSlot, hp], by simp, ?_, .null, ?_, ?_⟩
      · intro j hj
        exact List.getElem?_set_ne (Ne.symm hj)
      · simp [hi]
      · simp [fits, h1, h2]
    · simp only [if_true]
      by_cases h3 : FAILED e.init = true
      · rw [if_pos h3]
        refine ⟨arr.set i (.released { id := s.nextId, user := u }),
          by simp [writeSlot, hp, afterLastRelease],
          by simp, ?_, .released { id := s.nextId, user := u }, ?_, ?_⟩
        · intro j hj
          exact List.getElem?_set_ne (Ne.symm hj)
        · simp [hi]
        · simp [fits, h1, h2, h3]
      · rw [if_neg h3]
        refine ⟨arr.set i (.live { id := s.nextId, user := u }), by simp [writeSlot, hp],
          by simp, ?_, .live { id := s.nextId, user := u }, ?_, ?_⟩
        · intro j hj
          exact List.getElem?_set_ne (Ne.symm hj)
        · simp [hi]
        · simp [fits, slotBuilt, h1, h2, h3]
  · rw [if_neg h1]
    exact ⟨arr, hp, rfl, fun _ _ => rfl, .garbage, hg, by simp [fits, h1]⟩

theorem enumerateFrom_slots (env : Nat → SlotEnv) (us : List User) :
    ∀ (i : Nat) (acc : HRESULT × State) (arr : List Slot),
      acc.2._pCredentials = some arr → i + us.length ≤ arr.length →
      (∀ j, i ≤ j → j < arr.length → arr[j]? = some .garbage) →
      ∃ arr1, (enumerateFrom env us i acc).2._pCredentials = some arr1
        ∧ arr1.length = arr.length
        ∧ (∀ j, j < i → arr1[j]? = arr[j]?)
        ∧ ∀ k u, us[k]? = some u → ∃ v, arr1[i + k]? = some v ∧ fits (env (i + k)) u v = true := by
  induction us with
  | nil =>
    intro i acc arr hp _ _
    exact ⟨arr, hp, rfl, fun _ _ => rfl, by simp⟩
  | cons u us ih =>
    intro i acc arr hp hlen hg
    simp only [List.length_cons] at hlen
    obtain ⟨arr1, a1, a2, a3, v, a4, a5⟩ :=
      enumerateSlot_slots (env i) i u acc.2 arr hp (by omega) (hg i (Nat.le_refl i) (by omega))
    obtain ⟨arr2, b1, b2, b3, b4⟩ := ih (i + 1) (enumerateSlot (env i) i u acc.2) arr1 a1
      (by omega)
      (by
        intro j hj1 hj2
        rw [a3 j (by omega)]
        exact hg j (by omega) (by omega))
    refine ⟨arr2, b1, b2.trans a2, ?_, ?_⟩
    · intro j hj
      rw [b3 j (by omega), a3 j (by omega)]
    · intro k w hk
      cases k with
      | zero =>
        simp only [List.getElem?_cons_zero, Option.some.injEq] at hk
        subst hk
        refine ⟨v, ?_, a5⟩
        rw [Nat.add_zero, b3 i (by omega)]
        exact a4
      | succ k =>
        simp only [List.getElem?_cons_succ] at hk
        obtain ⟨v1, c1, c2⟩ := b4 k w hk
        refine ⟨v1, ?_, ?_⟩
        · rw [← c1]; congr 1; omega
        · rw [← c2]; congr 2; omega

theorem enumerate_slots (env : Nat → SlotEnv) (s : State) (users : List User)
    (hu : s._pCredProviderUserArray = some users) (hn : 0 < users.length) :
    ∃ arr, (_EnumerateCredentials env s).2._pCredentials = some arr
      ∧ arr.length = users.length
      ∧ ∀ k u, users[k]? = some u → ∃ v, arr[k]? = some v ∧ fits (env k) u v = true := by
  unfold _EnumerateCredentials
  split
  · rename_i h
    rw [hu] at h
    cases h
  · rename_i us h
    rw [hu] at h
    cases h
    simp only []
    rw [if_pos hn]
    obtain ⟨arr1, b1, b2, _, b4⟩ := enumerateFrom_slots env users 0
      (E_UNEXPECTED, { s with m_dwCredentialCount := users.length,
                              _pCredentials := some (List.replicate users.length .garbage) })
      (List.replicate users.length .garbage) rfl (by simp)
      (by
        intro j _ hj
        simp only [List.length_replicate] at hj
        simp [List.getElem?_replicate, hj])
    refine ⟨arr1, b1, by simpa using b2, ?_⟩
    intro k u hk
    simpa using b4 k u hk

/-- After an enumeration over `users`, `GetCredentialAt k` for a slot that was built returns
`S_OK` with the credential initialised for user `k`; for a slot that was not built it runs
into undefined behaviour: it never returns `E_INVALIDARG`. -/
theorem GetCredentialAt_after_enumerate (env : Nat → SlotEnv) (s : State) (users : List User)
    (k : Nat) (u : User) (hu : s._pCredProviderUserArray = some users)
    (hk : users[k]? = some u) :
    (slotBuilt (env k) = true →
      ∃ h, h.user = u ∧ GetCredentialAt k (_EnumerateCredentials env s).2
        = .ok ({ hr := S_OK, credential := some h },
               { (_EnumerateCredentials env s).2 with
                 log := (_EnumerateCredentials env s).2.log ++ [.queryInterface h] }))
    ∧ (slotBuilt (env k) = false →
      ∃ f, GetCredentialAt k (_EnumerateCredentials env s).2 = .fault f) := by
  have hklt : k < users.length := by
    by_contra hcon
    rw [List.getElem?_eq_none (by omega)] at hk
    cases hk
  obtain ⟨arr, a1, _, a3⟩ := enumerate_slots env s users hu (by omega)
  obtain ⟨v, b1, b2⟩ := a3 k u hk
  obtain ⟨_, _, _, c4, _, _⟩ := enumerate_of_users env s users hu
  have hlt : k < (_EnumerateCredentials env s).2.m_dwCredentialCount := by
    rw [c4]; exact hklt
  constructor
  · intro hb
    cases v with
    | garbage => simp [fits, slotBuilt] at b2 hb; simp [b2] at hb
    | null => simp [fits, slotBuilt] at b2 hb; simp [b2] at hb
    | released h => simp [fits, slotBuilt] at b2 hb; simp [b2] at hb
    | live h =>
      simp only [fits, Bool.and_eq_true, beq_iff_eq] at b2
      refine ⟨h, b2.2, ?_⟩
      unfold GetCredentialAt
      rw [if_pos hlt, a1]
      simp only [b1]
      rw [a1]
      rfl
  · intro hb
    unfold GetCredentialAt
    rw [if_pos hlt, a1]
    simp only [b1]
    cases v with
    | garbage => exact ⟨_, rfl⟩
    | null => exact ⟨_, rfl⟩
    | released h => exact ⟨_, rfl⟩
    | live h => simp [fits, hb] at b2

/-- C9, counterexample. Two users, the allocation failing for slot 0 only: slot 0 ends with
`E_OUTOFMEMORY` and a null pointer, slot 1 is built, and `_EnumerateCredentials` returns
`S_OK`, not the error code of the failing slot. -/
theorem enumerate_last_error_counterexample :
    logonTwoUsers._pCredProviderUserArray = some [10, 11]
    ∧ slotResult (firstAllocFails 0) = E_OUTOFMEMORY
    ∧ FAILED (slotResult (firstAllocFails 0)) = true
    ∧ slotBuilt (firstAllocFails 1) = true
    ∧ (_EnumerateCredentials firstAllocFails logonTwoUsers).2._pCredentials
        = some [.null, .live { id := 0, user := 11 }]
    ∧ (_EnumerateCredentials firstAllocFails logonTwoUsers).1 = S_OK
    ∧ S_OK ≠ E_OUTOFMEMORY := by
  decide

/-- C9, amended. For a user array of `n > 0` users and any answers of the collaborators,
`_EnumerateCredentials` returns the result code of the last iteration alone (slot `n - 1`):
a failure code exactly when that slot was not built, whatever happened at earlier slots.
Every slot is attempted: the array has `n` slots and slot `k` holds what the answers for
slot `k` and user `k` produce, whether or not earlier slots failed. -/
theorem enumerate_result_is_last_slot (env : Nat → SlotEnv) (s : State) (users : List User)
    (hu : s._pCredProviderUserArray = some users) (hn : 0 < users.length) :
    (_EnumerateCredentials env s).1 = slotResult (env (users.length - 1))
    ∧ FAILED (_EnumerateCredentials env s).1 = !slotBuilt (env (users.length - 1))
    ∧ ∃ arr, (_EnumerateCredentials env s).2._pCredentials = some arr
        ∧ arr.length = users.length
        ∧ ∀ k u, users[k]? = some u → ∃ v, arr[k]? = some v ∧ fits (env k) u v = true := by
  have hne : users ≠ [] := by
    intro h
    rw [h] at hn
    exact absurd hn (by simp)
  have hres : (_EnumerateCredentials env s).1 = slotResult (env (users.length - 1)) := by
    unfold _EnumerateCredentials
    split
    · rename_i h
      rw [hu] at h
      cases h
    · rename_i us h
      rw [hu] at h
      cases h
      simp only []
      rw [if_pos hn, enumerateFrom_result env users 0 _ hne, Nat.zero_add]
  exact ⟨hres, by rw [hres, slotResult_failed], enumerate_slots env s users hu hn⟩

/-- C9, amended, witness: two users with the allocation failing for slot 0 only. -/
theorem enumerate_result_is_last_slot_witness :
    logonTwoUsers._pCredProviderUserArray = some [10, 11]
    ∧ 0 < [10, 11].length
    ∧ (_EnumerateCredentials firstAllocFails logonTwoUsers).1
        = slotResult (firstAllocFails ([10, 11].length - 1))
    ∧ FAILED (_EnumerateCredentials firstAllocFails logonTwoUsers).1
        = !slotBuilt (firstAllocFails ([10, 11].length - 1))
    ∧ ∃ arr, (_EnumerateCredentials firstAllocFails logonTwoUsers).2._pCredentials = some arr
        ∧ arr.length = [10, 11].length
        ∧ ∀ k u, [10, 11][k]? = some u →
            ∃ v, arr[k]? = some v ∧ fits (firstAllocFails k) u v = true :=
  ⟨by decide, by decide,
   enumerate_result_is_last_slot firstAllocFails logonTwoUsers [10, 11] (by decide)
     (by decide)⟩

/-! ## Holes -/

/-- C2, the scenario of the claim evaluated on the code. Under `CPUS_LOGON` with three users
and `Initialize` failing for the second one, the count query reports 3 and `GetCredentialAt`
succeeds for indices 0 and 2 with the credentials built for users 10 and 12; slot 1 is not
empty, it still holds the released credential, and `GetCredentialAt 1` calls `QueryInterface`
through that dangling pointer instead of returning `E_INVALIDARG`. When the allocation fails
instead, slot 1 is null and `GetCredentialAt 1` calls through the null pointer. A set with
such a slot also cannot be released: the release loop calls `Release` through the same slot. -/
theorem hole_is_dereferenced :
    run (logonThree secondInitFails) (new CPUS_INVALID false)
      = .ok ([.scenario S_OK, .users S_OK,
              .count { count := 3, defaultIndex := CREDENTIAL_PROVIDER_NO_DEFAULT,
                       autoLogonWithDefault := true }], holedByInit)
    ∧ GetCredentialAt 0 holedByInit
      = .ok ({ hr := S_OK, credential := some { id := 0, user := 10 } },
             { holedByInit with
               log := holedByInit.log ++ [.queryInterface { id := 0, user := 10 }] })
    ∧ GetCredentialAt 2 holedByInit
      = .ok ({ hr := S_OK, credential := some { id := 2, user := 12 } },
             { holedByInit with
               log := holedByInit.log ++ [.queryInterface { id := 2, user := 12 }] })
    ∧ holedByInit._pCredentials.map (fun arr => arr[1]?)
      = some (some (.released { id := 1, user := 11 }))
    ∧ GetCredentialAt 1 holedByInit = .fault .useAfterRelease
    ∧ run (logonThree secondAllocFails) (new CPUS_INVALID false)
      = .ok ([.scenario S_OK, .users S_OK,
              .count { count := 3, defaultIndex := CREDENTIAL_PROVIDER_NO_DEFAULT,
                       autoLogonWithDefault := true }], holedByAlloc)
    ∧ GetCredentialAt 1 holedByAlloc = .fault .nullPointer
    ∧ _ReleaseEnumeratedCredentials holedByInit = .fault .useAfterRelease
    ∧ _ReleaseEnumeratedCredentials holedByAlloc = .fault .nullPointer := by
  decide

end BSCredentialProvider
